import Mathlib

/-!
Verification development for the Explorer-for-Endevor upload/retrieval core.

The definitions below are a shallow embedding of the TypeScript sources:
  * `src/packages/explorer-for-endevor/src/commands/uploadElement.ts`
    (`uploadElementCommand`, `askForUploadValues`, `uploadElement`,
     `complexSignoutElement`, `saveLocalElementVersion`,
     `safeRemoveUploadedElement`, `updateTreeAfterSuccessfulSignout`,
     `updateTreeAfterSuccessfulUpload`),
  * the multi-element edit command (`editMultipleElements`),
  * `src/packages/explorer-for-endevor/src/uri/comparedElementUri.ts`
    (`toComparedElementUri`, `isComparedElementUri`, `fromComparedElementUri`).

External collaborators (the Endevor REST client, VS Code dialogs, the file
system, the settings store) are modelled as oracles: an environment record
supplies, in order, the outcome of each external call the code makes.  The
embedding threads that environment through the control flow of the source
and records every externally visible action in a trace of `Effect`s.
-/

namespace E4E

/-- Propositional equality of `Except` values is decidable when both
component types have decidable equality (needed to evaluate the embedding
on concrete environments). -/
instance {ε α : Type} [DecidableEq ε] [DecidableEq α] :
    DecidableEq (Except ε α) := fun x y =>
  match x, y with
  | .ok a, .ok b =>
    if h : a = b then .isTrue (by rw [h])
    else .isFalse (by intro hc; injection hc; contradiction)
  | .error a, .error b =>
    if h : a = b then .isTrue (by rw [h])
    else .isFalse (by intro hc; injection hc; contradiction)
  | .ok _, .error _ => .isFalse (by intro hc; injection hc)
  | .error _, .ok _ => .isFalse (by intro hc; injection hc)

/-- Endevor connection details (`Service` in `@local/endevor/_doc/Endevor`).
The nested `location`/`credential` records are flattened; none of the fields
influence control flow, they are carried as identity data only. -/
structure Service where
  protocol : String
  port : Int
  hostname : String
  basePath : String
  credentialUser : String
  credentialPassword : String
  rejectUnauthorized : Bool
deriving DecidableEq, Repr

/-- `ChangeControlValue` / `ActionChangeControlValue`: the (ccid, comment)
pair required on every mutating call. -/
structure ChangeControlValue where
  ccid : String
  comment : String
deriving DecidableEq, Repr

/-- `ElementSearchLocation`: an instance plus optional narrowing values and
optional change-control defaults.  The source's `instance` field is called
`instanceId` here because `instance` is reserved in Lean. -/
structure ElementSearchLocation where
  instanceId : String
  environment : Option String
  stageNumber : Option String
  system : Option String
  subsystem : Option String
  type : Option String
  ccid : Option String
  comment : Option String
deriving DecidableEq, Repr

/-- `ElementMapPath`: the full identity of an element position in the map. -/
structure ElementMapPath where
  instanceId : String
  environment : String
  stageNumber : String
  system : String
  subSystem : String
  type : String
  name : String
deriving DecidableEq, Repr

/-- `Element`: an `ElementMapPath` together with the file extension. -/
structure Element where
  instanceId : String
  environment : String
  stageNumber : String
  system : String
  subSystem : String
  type : String
  name : String
  extension : String
deriving DecidableEq, Repr

/-- The spread `{...uploadLocation, extension: element.extension}` performed
by `uploadElementCommand` when it hands the chosen upload location to
`uploadElement`. -/
def toElement (p : ElementMapPath) (ext : String) : Element :=
  { instanceId := p.instanceId, environment := p.environment
    stageNumber := p.stageNumber, system := p.system
    subSystem := p.subSystem, type := p.type, name := p.name
    extension := ext }

/-- The domain events dispatched by `uploadElement.ts`.  The source builds
exactly two action shapes: `{type: Actions.ELEMENT_SIGNEDOUT, ...}` in
`updateTreeAfterSuccessfulSignout` and `{type: Actions.ELEMENT_UPDATED, ...}`
in `updateTreeAfterSuccessfulUpload`; both carry the same payload fields. -/
inductive Action
  | elementSignedOut (serviceName : String) (service : Service)
      (searchLocationName : String) (searchLocation : ElementSearchLocation)
      (elements : List Element)
  | elementUpdated (serviceName : String) (service : Service)
      (searchLocationName : String) (searchLocation : ElementSearchLocation)
      (elements : List Element)
deriving DecidableEq, Repr

/-- Outcome of one `updateElement` remote call, as discriminated by the
source's `isSignoutError` / `isFingerprintMismatchError` / `isError`
dynamic checks (a successful call resolves with `undefined`). -/
inductive UpdateResult
  | ok
  | signoutError (msg : String)
  | fingerprintMismatchError (msg : String)
  | genericError (msg : String)
deriving DecidableEq, Repr

/-- Outcome of one `signOutElement` remote call. -/
inductive SignOutResult
  | ok
  | signoutError (msg : String)
  | genericError (msg : String)
deriving DecidableEq, Repr

/-- Outcome of one `overrideSignOutElement` remote call (the source only
checks it with `isError`). -/
inductive OverrideSignOutResult
  | ok
  | genericError (msg : String)
deriving DecidableEq, Repr

/-- Answer of the `askToSignOutElements` dialog. -/
structure SignOutAnswer where
  signOutElements : Bool
  automaticSignOut : Bool
deriving DecidableEq, Repr

/-- Externally visible actions performed by the upload command, in program
order. -/
inductive Effect
  | readElementContent (filePath : String)
  | updateCall (service : Service) (element : Element)
      (ccv : ChangeControlValue) (fingerprint : String) (content : String)
  | signOutCall (service : Service) (element : Element)
      (ccv : ChangeControlValue)
  | overrideSignOutCall (service : Service) (element : Element)
      (ccv : ChangeControlValue)
  | turnOnAutomaticSignOutCall
  | savedLocalVersionFile (folder : String) (fileName : String)
      (fileExtension : String) (content : String)
  | compareCall (service : Service) (searchLocation : ElementSearchLocation)
      (ccv : ChangeControlValue) (element : Element) (serviceName : String)
      (searchLocationName : String) (localVersionFilePath : String)
  | dispatched (action : Action)
  | closedActiveEditor
  | reopenedEditor (filePath : String)
  | deleteAttempt (filePath : String)
deriving DecidableEq, Repr

/-- Oracle results for the recovery-side external calls made while one
upload orchestration runs.  Each call consumes the head of its list; an
exhausted list yields the declining / failing default, which corresponds to
an environment that stops supplying answers. -/
structure RecoveryEnv where
  signOutAnswers : List SignOutAnswer
  signOutResults : List SignOutResult
  overrideAnswers : List Bool
  overrideResults : List OverrideSignOutResult
  saveResults : List (Except String String)
  compareResults : List (Except String Unit)
deriving DecidableEq, Repr

def takeSignOutAnswer (env : RecoveryEnv) : SignOutAnswer × RecoveryEnv :=
  match env.signOutAnswers with
  | [] => (⟨false, false⟩, env)
  | a :: rest => (a, { env with signOutAnswers := rest })

def takeSignOutResult (env : RecoveryEnv) : SignOutResult × RecoveryEnv :=
  match env.signOutResults with
  | [] => (.genericError "no sign out result supplied", env)
  | r :: rest => (r, { env with signOutResults := rest })

def takeOverrideAnswer (env : RecoveryEnv) : Bool × RecoveryEnv :=
  match env.overrideAnswers with
  | [] => (false, env)
  | a :: rest => (a, { env with overrideAnswers := rest })

def takeOverrideResult (env : RecoveryEnv) : OverrideSignOutResult × RecoveryEnv :=
  match env.overrideResults with
  | [] => (.genericError "no override result supplied", env)
  | r :: rest => (r, { env with overrideResults := rest })

def takeSaveResult (env : RecoveryEnv) : Except String String × RecoveryEnv :=
  match env.saveResults with
  | [] => (.error "no save result supplied", env)
  | r :: rest => (r, { env with saveResults := rest })

def takeCompareResult (env : RecoveryEnv) : Except String Unit × RecoveryEnv :=
  match env.compareResults with
  | [] => (.error "no compare result supplied", env)
  | r :: rest => (r, { env with compareResults := rest })

/-- Arguments of one `uploadElement` orchestration: the curried parameters
of the source function plus the read-file oracle (`getFileContent` result
for the session's temp file; the file does not change during the
orchestration, so re-reads return the same value). -/
structure UploadCtx where
  service : Service
  searchLocation : ElementSearchLocation
  serviceName : String
  searchLocationName : String
  element : Element
  uploadChangeControlValue : ChangeControlValue
  elementFilePath : String
  fingerprint : String
  readContent : Except String String
deriving DecidableEq, Repr

/-- Model of Node's POSIX `path.dirname` for paths without a trailing
slash: everything before the last `/`, `"."` when there is no slash,
`"/"` for entries directly under the root. -/
def dirname (p : String) : String :=
  match (p.data.reverse.dropWhile (fun c => c ≠ '/')) with
  | [] => "."
  | _ :: revRest =>
    match revRest with
    | [] => "/"
    | _ => String.mk revRest.reverse

/- Error-message builders, verbatim from `uploadElement.ts`. -/

def readContentFailedMsg (msg : String) : String :=
  "Unable to read the element content because of error " ++ msg

def signedOutToSomebodyElseMsg (name : String) : String :=
  "Unable to upload the element " ++ name ++
    " because it is signed out to somebody else"

def overrideNotSelectedMsg (name : String) : String :=
  "The element " ++ name ++
    " is signed out to somebody else, override signout action is not selected"

def overrideSignoutFailedMsg (name : String) (msg : String) : String :=
  "Unable to perform an override signout of the element " ++ name ++
    " because of error " ++ msg

def signOutFailedMsg (name : String) (msg : String) : String :=
  "Unable to sign out the element " ++ name ++ " because of error " ++ msg

def saveLocalVersionFailedMsg (name : String) (msg : String) : String :=
  "Unable to save a local version of the element " ++ name ++
    " to compare because of error " ++ msg

def invalidEditFolderMsg : String :=
  "Unable to get a valid edit folder name to compare the elements"

def uploadLocationMustBeSpecifiedMsg (name : String) : String :=
  "Upload location must be specified to upload the element " ++ name

def ccidCommentMustBeSpecifiedMsg (name : String) : String :=
  "CCID and Comment must be specified to upload the element " ++ name

/-- The `elementSignedOut` action dispatched by
`updateTreeAfterSuccessfulSignout` for the current orchestration. -/
def signedOutAction (ctx : UploadCtx) : Action :=
  Action.elementSignedOut ctx.serviceName ctx.service ctx.searchLocationName
    ctx.searchLocation [ctx.element]

/-- `complexSignoutElement` from `uploadElement.ts`: ask the user to sign
out, call `signOutElement`, on a second signout conflict ask to override and
call `overrideSignOutElement`; a successful recovery dispatches the
signed-out event.  Note that when the override call fails the source wraps
the message of the ORIGINAL `signOutResult`, not of the failed override
(`const error = signOutResult;` on the override failure branch). -/
def complexSignoutElement (ctx : UploadCtx) (env : RecoveryEnv) :
    Except String Unit × RecoveryEnv × List Effect :=
  let (ans, env) := takeSignOutAnswer env
  if !ans.signOutElements && !ans.automaticSignOut then
    (.error (signedOutToSomebodyElseMsg ctx.element.name), env, [])
  else
    -- `turnOnAutomaticSignOut` failures are caught and only logged
    let autoTrace : List Effect :=
      if ans.automaticSignOut then [Effect.turnOnAutomaticSignOutCall] else []
    let (sres, env) := takeSignOutResult env
    let callTrace := autoTrace ++
      [Effect.signOutCall ctx.service ctx.element ctx.uploadChangeControlValue]
    match sres with
    | .signoutError msg1 =>
      let (ovAns, env) := takeOverrideAnswer env
      if !ovAns then
        (.error (overrideNotSelectedMsg ctx.element.name), env, callTrace)
      else
        let (ovRes, env) := takeOverrideResult env
        let callTrace := callTrace ++
          [Effect.overrideSignOutCall ctx.service ctx.element
            ctx.uploadChangeControlValue]
        match ovRes with
        | .genericError _ =>
          (.error (overrideSignoutFailedMsg ctx.element.name msg1), env,
            callTrace)
        | .ok =>
          (.ok (), env,
            callTrace ++ [Effect.dispatched (signedOutAction ctx)])
    | .genericError msg =>
      (.error (signOutFailedMsg ctx.element.name msg), env, callTrace)
    | .ok =>
      (.ok (), env, callTrace ++ [Effect.dispatched (signedOutAction ctx)])

/-- `saveLocalElementVersion` from `uploadElement.ts`, staged into the
fingerprint-mismatch branch of `uploadElement` below: compute the temp edit
folder from the session file path and save
`<element name>-local-version.<extension>` with the in-editor content (the
write itself is the `saveFileIntoWorkspaceFolder` oracle). -/
def saveLocalElementVersion (ctx : UploadCtx) (env : RecoveryEnv) :
    Except String String × RecoveryEnv × List Effect :=
  let tempEditFolder := dirname ctx.elementFilePath
  if tempEditFolder = "" then
    (.error invalidEditFolderMsg, env, [])
  else
    match takeSaveResult env with
    | (.error m, env) => (.error m, env, [])
    | (.ok savedPath, env) =>
      (.ok savedPath, env,
        [Effect.savedLocalVersionFile tempEditFolder
          (ctx.element.name ++ "-local-version") ctx.element.extension
          (match ctx.readContent with | .ok c => c | .error _ => "")])

/-- `uploadElement` from `uploadElement.ts`: read the edited content, call
`updateElement`, and react to the outcome.  On `SignoutError` it runs
`complexSignoutElement` and, when that recovery succeeds, RE-ENTERS ITSELF
(the source literally returns a recursive call with the same arguments); on
`FingerprintMismatchError` it stages the local version and invokes
`compareElementWithRemoteVersion`, returning success when that invocation
resolves without error.  The update-call oracle is the explicit list
argument; each remote `update` consumes its head. -/
def uploadElement (ctx : UploadCtx) :
    List UpdateResult → RecoveryEnv →
      Except String Unit × RecoveryEnv × List Effect
  | [], env =>
    match ctx.readContent with
    | .error msg =>
      (.error (readContentFailedMsg msg), env,
        [Effect.readElementContent ctx.elementFilePath])
    | .ok _ =>
      -- oracle exhausted: an adequate environment supplies one result per
      -- remote update call, so this case is unreachable in the theorems
      (.error "no update result supplied", env,
        [Effect.readElementContent ctx.elementFilePath])
  | u :: rest, env =>
    match ctx.readContent with
    | .error msg =>
      (.error (readContentFailedMsg msg), env,
        [Effect.readElementContent ctx.elementFilePath])
    | .ok content =>
      let upTrace := [Effect.readElementContent ctx.elementFilePath,
        Effect.updateCall ctx.service ctx.element
          ctx.uploadChangeControlValue ctx.fingerprint content]
      match u with
      | .signoutError _ =>
        let (sres, env, sTrace) := complexSignoutElement ctx env
        match sres with
        | .error msg => (.error msg, env, upTrace ++ sTrace)
        | .ok _ =>
          let (r, env', t') := uploadElement ctx rest env
          (r, env', upTrace ++ sTrace ++ t')
      | .fingerprintMismatchError _ =>
        let (saved, env, svTrace) := saveLocalElementVersion ctx env
        match saved with
        | .error m =>
          (.error (saveLocalVersionFailedMsg ctx.element.name m), env,
            upTrace ++ svTrace)
        | .ok savedPath =>
          let (cres, env) := takeCompareResult env
          let cmpTrace := upTrace ++ svTrace ++
            [Effect.compareCall ctx.service ctx.searchLocation
              ctx.uploadChangeControlValue ctx.element ctx.serviceName
              ctx.searchLocationName savedPath]
          match cres with
          | .error m => (.error m, env, cmpTrace)
          | .ok _ => (.ok (), env, cmpTrace)
      | .genericError m => (.error m, env, upTrace)
      | .ok => (.ok (), env, upTrace)

/-- The edit-session identity recovered by `fromEditedElementUri` (that
decoder lives outside the upload module; its outcome is an oracle). -/
structure EditSessionParams where
  element : Element
  searchLocation : ElementSearchLocation
  service : Service
  fingerprint : String
  searchLocationName : String
  serviceName : String
deriving DecidableEq, Repr

/-- Environment of one `uploadElementCommand` run: the URI-decoding outcome,
the two dialog answers, the file-read oracle, and the remote-call oracles. -/
structure CommandEnv where
  uriParse : Except String EditSessionParams
  uploadLocationAnswer : Option ElementMapPath
  changeControlAnswer : Option ChangeControlValue
  readContent : Except String String
  updates : List UpdateResult
  recovery : RecoveryEnv
deriving DecidableEq, Repr

/-- Terminal outcome of one `uploadElementCommand` run, mirroring which
return statement of the source is taken. -/
inductive CommandOutcome
  | parseFailed (msg : String)
  | valuesNotProvided (msg : String)
  | uploadFailed (msg : String)
  | completed
deriving DecidableEq, Repr

/-- `askForUploadValues` from `uploadElement.ts`: the upload-location dialog
followed by the change-control dialog, each cancellable; note the second
error message names the chosen upload location. -/
def askForUploadValues (env : CommandEnv) (element : Element) :
    Except String (ElementMapPath × ChangeControlValue) :=
  match env.uploadLocationAnswer with
  | none => .error (uploadLocationMustBeSpecifiedMsg element.name)
  | some uploadLocation =>
    match env.changeControlAnswer with
    | none => .error (ccidCommentMustBeSpecifiedMsg uploadLocation.name)
    | some ccv => .ok (uploadLocation, ccv)

/-- The `uploadElement` argument pack the command assembles: the session's
connection data, the chosen upload location spread with the session
element's extension, and the session's file path and fingerprint. -/
def commandUploadCtx (env : CommandEnv) (elementFsPath : String)
    (p : EditSessionParams) (uploadLocation : ElementMapPath)
    (ccv : ChangeControlValue) : UploadCtx :=
  { service := p.service, searchLocation := p.searchLocation
    serviceName := p.serviceName
    searchLocationName := p.searchLocationName
    element := toElement uploadLocation p.element.extension
    uploadChangeControlValue := ccv
    elementFilePath := elementFsPath
    fingerprint := p.fingerprint
    readContent := env.readContent }

/-- `uploadElementCommand` from `uploadElement.ts`: decode the edited URI,
collect upload values, close the editor, run `uploadElement`; on error
reopen the edit session, on success delete the temp file
(`safeRemoveUploadedElement`, best effort) and dispatch the
`ELEMENT_UPDATED` action built by `updateTreeAfterSuccessfulUpload` with the
ORIGINAL edit-session element. -/
def uploadElementCommand (env : CommandEnv) (elementFsPath : String) :
    CommandOutcome × List Effect :=
  match env.uriParse with
  | .error m => (.parseFailed m, [])
  | .ok p =>
    match askForUploadValues env p.element with
    | .error m => (.valuesNotProvided m, [])
    | .ok (uploadLocation, ccv) =>
      let ctx := commandUploadCtx env elementFsPath p uploadLocation ccv
      let (r, _, tr) := uploadElement ctx env.updates env.recovery
      let tr := Effect.closedActiveEditor :: tr
      match r with
      | .error m =>
        (.uploadFailed m, tr ++ [Effect.reopenedEditor elementFsPath])
      | .ok _ =>
        (.completed,
          tr ++ [Effect.deleteAttempt elementFsPath,
            Effect.dispatched (Action.elementUpdated p.serviceName p.service
              p.searchLocationName p.searchLocation [p.element])])

/- Trace observations. -/

def isUpdateCall : Effect → Bool
  | .updateCall _ _ _ _ _ => true
  | _ => false

def isSignOutCall : Effect → Bool
  | .signOutCall _ _ _ => true
  | _ => false

def isOverrideSignOutCall : Effect → Bool
  | .overrideSignOutCall _ _ _ => true
  | _ => false

def isCompareCall : Effect → Bool
  | .compareCall _ _ _ _ _ _ _ => true
  | _ => false

def isDeleteAttempt : Effect → Bool
  | .deleteAttempt _ => true
  | _ => false

/-- Any remote Endevor call (`update`, `signOut`, override `signOut`). -/
def isRemoteCall (e : Effect) : Bool :=
  isUpdateCall e || isSignOutCall e || isOverrideSignOutCall e

def dispatchedActions (tr : List Effect) : List Action :=
  tr.filterMap fun e =>
    match e with
    | .dispatched a => some a
    | _ => none

def countUpdateCalls (tr : List Effect) : Nat := tr.countP (isUpdateCall ·)

def countSignOutCalls (tr : List Effect) : Nat := tr.countP (isSignOutCall ·)

def countOverrideCalls (tr : List Effect) : Nat :=
  tr.countP (isOverrideSignOutCall ·)

def countDeleteAttempts (tr : List Effect) : Nat :=
  tr.countP (isDeleteAttempt ·)

def countSignedOutDispatches (tr : List Effect) : Nat :=
  tr.countP fun e =>
    match e with
    | .dispatched (Action.elementSignedOut _ _ _ _ _) => true
    | _ => false

def isCompleted : CommandOutcome → Bool
  | .completed => true
  | _ => false

/-!
Multi-element edit (`editMultipleElements`): elements are retrieved through
a bounded pool (the pool preserves each task's result at its index), then
saved, then revealed sequentially; per-element failures travel as values
through the staged arrays and are reported once at the end.
-/

/-- The identity recovered by `fromTreeElementUri` for one tree element
(`TreeElementUriQuery`). -/
structure TreeElementParams where
  serviceName : String
  searchLocationName : String
  service : Service
  element : Element
  searchLocation : ElementSearchLocation
deriving DecidableEq, Repr

/-- The `retrieveElementWithFingerprint` payload. -/
structure RetrievedContent where
  content : String
  fingerprint : String
deriving DecidableEq, Repr

/-- Per-element oracle outcomes for one `editMultipleElements` run: the item
as selected in the tree plus the result each of its external calls would
produce (URI decode, retrieval, save to the edit folder, upload-options URI
augmentation — which the source allows to yield `undefined` — and the
editor reveal). -/
structure MultiEditItem where
  name : String
  uriParse : Except String TreeElementParams
  retrieveResult : Except String RetrievedContent
  saveResult : Except String String
  uploadOptionsResult : Option String
  showResult : Except String Unit
deriving DecidableEq, Repr

/-- Wrapping of a tree-URI decode failure performed at the top of
`editMultipleElements`. -/
def uriParseFailedMsg (name : String) (msg : String) : String :=
  "Unable to edit the element " ++ name ++ " because of an error " ++ msg

/-- Stage 1: `elements.map(fromTreeElementUri)` with error wrapping. -/
def multiEditElementUris (items : List MultiEditItem) :
    List (Except String TreeElementParams) :=
  items.map fun it =>
    match it.uriParse with
    | .error m => .error (uriParseFailedMsg it.name m)
    | .ok p => .ok p

/-- Stage 2: the retrieval `PromisePool` — a decode failure becomes an
immediately resolved error task, others run `retrieveElementWithFingerprint`;
the pool stores every result at the task's original index. -/
def multiEditRetrievedContents (items : List MultiEditItem) :
    List (Except String RetrievedContent) :=
  List.zipWith
    (fun it eu =>
      match eu with
      | Except.error m => Except.error m
      | Except.ok _ => it.retrieveResult)
    items (multiEditElementUris items)

/-- Stage 3: pair each decoded identity with its retrieved content
(`retrieveResults` in the source), errors staying at their index. -/
def multiEditRetrieveResults (items : List MultiEditItem) :
    List (Except String (TreeElementParams × RetrievedContent)) :=
  List.zipWith
    (fun eu rc =>
      match eu with
      | Except.error m => Except.error m
      | Except.ok p =>
        match rc with
        | Except.error m => Except.error m
        | Except.ok c => Except.ok (p, c))
    (multiEditElementUris items) (multiEditRetrievedContents items)

/-- Stage 4: `saveIntoEditFolder` followed by `withUploadOptions`; the inner
`Option` is the source's possibly-`undefined` uploadable URI. -/
def multiEditSaveResults (items : List MultiEditItem) :
    List (Except String (Option String)) :=
  List.zipWith
    (fun it rr =>
      match rr with
      | Except.error m => Except.error m
      | Except.ok _ =>
        match it.saveResult with
        | Except.error m => Except.error m
        | Except.ok _ => Except.ok it.uploadOptionsResult)
    items (multiEditRetrieveResults items)

/-- Stage 5: the sequential reveal pool; an entry is `some message` exactly
when an error value reaches the end of the pipeline for that index (an
`undefined` uploadable URI resolves as a non-error, as in the source). -/
def multiEditShowResults (items : List MultiEditItem) :
    List (Option String) :=
  List.zipWith
    (fun it sr =>
      match sr with
      | Except.error m => some m
      | Except.ok none => none
      | Except.ok (some _) =>
        match it.showResult with
        | Except.error m => some m
        | Except.ok _ => none)
    items (multiEditSaveResults items)

/-- Outcome of `editMultipleElements`: the per-index results and, when any
error survived, the single combined diagnostic (the names interpolated into
the logged message — the source lists EVERY selected element's name — and
the collected error messages). -/
inductive MultiEditOutcome
  | noWorkspace
  | done (itemResults : List (Option String))
      (diagnostic : Option (List String × List String))
deriving DecidableEq, Repr

/-- `editMultipleElements` from the edit command module. -/
def editMultipleElements (workspaceOpened : Bool)
    (items : List MultiEditItem) : MultiEditOutcome :=
  if !workspaceOpened then .noWorkspace
  else
    let showResults := multiEditShowResults items
    let overallErrors := showResults.filterMap id
    .done showResults
      (if overallErrors.isEmpty then none
       else some (items.map (·.name), overallErrors))

/-- The per-item outcome function: what one element's pipeline produces from
that element's own oracle outcomes alone. -/
def multiEditItemOutcome (it : MultiEditItem) : Option String :=
  match it.uriParse with
  | .error m => some (uriParseFailedMsg it.name m)
  | .ok _ =>
    match it.retrieveResult with
    | .error m => some m
    | .ok _ =>
      match it.saveResult with
      | .error m => some m
      | .ok _ =>
        match it.uploadOptionsResult with
        | none => none
        | some _ =>
          match it.showResult with
          | .error m => some m
          | .ok _ => none

/-!
The compared-element locator codec (`comparedElementUri.ts`).  The codec
round-trips a query object through `JSON.stringify` / `JSON.parse` and
`encodeURIComponent` / `decodeURIComponent`; those runtime primitives are
modelled below.  `JSON.parse` is modelled for the fragment the codec can
meet: numbers are integers (the serialized queries contain no fractions)
and lone surrogates are rejected.  `decodeURIComponent` returns `none`
where the JavaScript builtin throws `URIError` (malformed percent
sequences), because `isComparedElementUri` calls it OUTSIDE its try/catch.
-/

/-- JavaScript JSON values (object members keep insertion order and may
repeat, as after `JSON.parse`). -/
inductive Json
  | null
  | bool (b : Bool)
  | num (n : Int)
  | str (s : String)
  | arr (elems : List Json)
  | obj (members : List (String × Json))

mutual

def Json.decEq : (a b : Json) → Decidable (a = b)
  | .null, .null => .isTrue rfl
  | .null, .bool _ => .isFalse (fun h => Json.noConfusion h)
  | .null, .num _ => .isFalse (fun h => Json.noConfusion h)
  | .null, .str _ => .isFalse (fun h => Json.noConfusion h)
  | .null, .arr _ => .isFalse (fun h => Json.noConfusion h)
  | .null, .obj _ => .isFalse (fun h => Json.noConfusion h)
  | .bool _, .null => .isFalse (fun h => Json.noConfusion h)
  | .bool x, .bool y =>
    if h : x = y then .isTrue (by rw [h])
    else .isFalse (fun hh => h (by injection hh))
  | .bool _, .num _ => .isFalse (fun h => Json.noConfusion h)
  | .bool _, .str _ => .isFalse (fun h => Json.noConfusion h)
  | .bool _, .arr _ => .isFalse (fun h => Json.noConfusion h)
  | .bool _, .obj _ => .isFalse (fun h => Json.noConfusion h)
  | .num _, .null => .isFalse (fun h => Json.noConfusion h)
  | .num _, .bool _ => .isFalse (fun h => Json.noConfusion h)
  | .num x, .num y =>
    if h : x = y then .isTrue (by rw [h])
    else .isFalse (fun hh => h (by injection hh))
  | .num _, .str _ => .isFalse (fun h => Json.noConfusion h)
  | .num _, .arr _ => .isFalse (fun h => Json.noConfusion h)
  | .num _, .obj _ => .isFalse (fun h => Json.noConfusion h)
  | .str _, .null => .isFalse (fun h => Json.noConfusion h)
  | .str _, .bool _ => .isFalse (fun h => Json.noConfusion h)
  | .str _, .num _ => .isFalse (fun h => Json.noConfusion h)
  | .str x, .str y =>
    if h : x = y then .isTrue (by rw [h])
    else .isFalse (fun hh => h (by injection hh))
  | .str _, .arr _ => .isFalse (fun h => Json.noConfusion h)
  | .str _, .obj _ => .isFalse (fun h => Json.noConfusion h)
  | .arr _, .null => .isFalse (fun h => Json.noConfusion h)
  | .arr _, .bool _ => .isFalse (fun h => Json.noConfusion h)
  | .arr _, .num _ => .isFalse (fun h => Json.noConfusion h)
  | .arr _, .str _ => .isFalse (fun h => Json.noConfusion h)
  | .arr xs, .arr ys =>
    match Json.decEqList xs ys with
    | .isTrue h => .isTrue (by rw [h])
    | .isFalse h => .isFalse (fun hh => h (by injection hh))
  | .arr _, .obj _ => .isFalse (fun h => Json.noConfusion h)
  | .obj _, .null => .isFalse (fun h => Json.noConfusion h)
  | .obj _, .bool _ => .isFalse (fun h => Json.noConfusion h)
  | .obj _, .num _ => .isFalse (fun h => Json.noConfusion h)
  | .obj _, .str _ => .isFalse (fun h => Json.noConfusion h)
  | .obj _, .arr _ => .isFalse (fun h => Json.noConfusion h)
  | .obj xs, .obj ys =>
    match Json.decEqMembers xs ys with
    | .isTrue h => .isTrue (by rw [h])
    | .isFalse h => .isFalse (fun hh => h (by injection hh))

def Json.decEqList : (a b : List Json) → Decidable (a = b)
  | [], [] => .isTrue rfl
  | [], _ :: _ => .isFalse (fun h => List.noConfusion h)
  | _ :: _, [] => .isFalse (fun h => List.noConfusion h)
  | x :: xs, y :: ys =>
    match Json.decEq x y with
    | .isTrue h1 =>
      match Json.decEqList xs ys with
      | .isTrue h2 => .isTrue (by rw [h1, h2])
      | .isFalse h2 => .isFalse (fun hh => h2 (by injection hh))
    | .isFalse h1 => .isFalse (fun hh => h1 (by injection hh))

def Json.decEqMembers : (a b : List (String × Json)) → Decidable (a = b)
  | [], [] => .isTrue rfl
  | [], _ :: _ => .isFalse (fun h => List.noConfusion h)
  | _ :: _, [] => .isFalse (fun h => List.noConfusion h)
  | (k1, v1) :: xs, (k2, v2) :: ys =>
    if hk : k1 = k2 then
      match Json.decEq v1 v2 with
      | .isTrue h1 =>
        match Json.decEqMembers xs ys with
        | .isTrue h2 => .isTrue (by rw [hk, h1, h2])
        | .isFalse h2 => .isFalse (fun hh => h2 (by injection hh))
      | .isFalse h1 =>
        .isFalse (fun hh => by
          injection hh with hh1 hh2
          exact h1 (congrArg Prod.snd hh1))
    else
      .isFalse (fun hh => by
        injection hh with hh1 hh2
        exact hk (congrArg Prod.fst hh1))

end

instance : DecidableEq Json := Json.decEq

def hexDigitUpper (n : Nat) : Char :=
  if n < 10 then Char.ofNat (48 + n) else Char.ofNat (55 + n)

def hexDigitLower (n : Nat) : Char :=
  if n < 10 then Char.ofNat (48 + n) else Char.ofNat (87 + n)

/-- `JSON.stringify` escaping of one character inside a string literal. -/
def escapeJsonChar (c : Char) : String :=
  if c = '"' then "\\\""
  else if c = '\\' then "\\\\"
  else if c = '\x08' then "\\b"
  else if c = '\x09' then "\\t"
  else if c = '\x0a' then "\\n"
  else if c = '\x0c' then "\\f"
  else if c = '\x0d' then "\\r"
  else if c.toNat < 0x20 then
    "\\u00" ++ String.mk [hexDigitLower (c.toNat / 16), hexDigitLower (c.toNat % 16)]
  else String.mk [c]

def renderJsonString (s : String) : String :=
  "\"" ++ String.join (s.data.map escapeJsonChar) ++ "\""

mutual

/-- `JSON.stringify` (no indentation; `undefined`-valued members never reach
this function: they are dropped when the object is built). -/
def Json.render : Json → String
  | .null => "null"
  | .bool true => "true"
  | .bool false => "false"
  | .num n => toString n
  | .str s => renderJsonString s
  | .arr elems => "[" ++ Json.renderElems elems ++ "]"
  | .obj members => "\x7b" ++ Json.renderMembers members ++ "\x7d"

def Json.renderElems : List Json → String
  | [] => ""
  | [j] => Json.render j
  | j :: rest => Json.render j ++ "," ++ Json.renderElems rest

def Json.renderMembers : List (String × Json) → String
  | [] => ""
  | [(k, v)] => renderJsonString k ++ ":" ++ Json.render v
  | (k, v) :: rest =>
    renderJsonString k ++ ":" ++ Json.render v ++ "," ++ Json.renderMembers rest

end

def jsonWsChars : List Char := [' ', '\x09', '\x0a', '\x0d']

def skipJsonWs (cs : List Char) : List Char :=
  cs.dropWhile (fun c => jsonWsChars.contains c)

def hexVal (c : Char) : Option Nat :=
  if 48 ≤ c.toNat ∧ c.toNat ≤ 57 then some (c.toNat - 48)
  else if 97 ≤ c.toNat ∧ c.toNat ≤ 102 then some (c.toNat - 87)
  else if 65 ≤ c.toNat ∧ c.toNat ≤ 70 then some (c.toNat - 55)
  else none

/-- String-literal body parser (after the opening quote); yields the decoded
characters and the input after the closing quote. -/
def parseJsonStringChars : Nat → List Char → Option (List Char × List Char)
  | 0, _ => none
  | _, [] => none
  | fuel+1, c :: rest =>
    if c = '"' then some ([], rest)
    else if c = '\\' then
      match rest with
      | [] => none
      | e :: rest2 =>
        let esc : Option (List Char × List Char) :=
          if e = '"' then some (['"'], rest2)
          else if e = '\\' then some (['\\'], rest2)
          else if e = '/' then some (['/'], rest2)
          else if e = 'b' then some (['\x08'], rest2)
          else if e = 'f' then some (['\x0c'], rest2)
          else if e = 'n' then some (['\x0a'], rest2)
          else if e = 'r' then some (['\x0d'], rest2)
          else if e = 't' then some (['\x09'], rest2)
          else if e = 'u' then
            match rest2 with
            | a :: b :: c2 :: d :: rest3 =>
              match hexVal a, hexVal b, hexVal c2, hexVal d with
              | some x1, some x2, some x3, some x4 =>
                let n := ((x1 * 16 + x2) * 16 + x3) * 16 + x4
                if n < 0xd800 ∨ 0xe000 ≤ n then some ([Char.ofNat n], rest3)
                else none
              | _, _, _, _ => none
            | _ => none
          else none
        match esc with
        | none => none
        | some (cs0, rem) =>
          match parseJsonStringChars fuel rem with
          | none => none
          | some (tailCs, rem2) => some (cs0 ++ tailCs, rem2)
    else if c.toNat < 0x20 then none
    else
      match parseJsonStringChars fuel rest with
      | none => none
      | some (tailCs, rem2) => some (c :: tailCs, rem2)

def digitsToNat (ds : List Char) : Nat :=
  ds.foldl (fun acc c => acc * 10 + (c.toNat - 48)) 0

def parseJsonNumber (cs : List Char) : Option (Int × List Char) :=
  let (neg, cs1) :=
    match cs with
    | '-' :: rest => (true, rest)
    | _ => (false, cs)
  let ds := cs1.takeWhile (fun c => c.isDigit)
  let rest := cs1.dropWhile (fun c => c.isDigit)
  if ds.isEmpty then none
  else
    let n : Int := Int.ofNat (digitsToNat ds)
    some ((if neg then -n else n), rest)

mutual

def parseJsonValue : Nat → List Char → Option (Json × List Char)
  | 0, _ => none
  | fuel+1, cs =>
    match skipJsonWs cs with
    | 'n' :: 'u' :: 'l' :: 'l' :: rest => some (.null, rest)
    | 't' :: 'r' :: 'u' :: 'e' :: rest => some (.bool true, rest)
    | 'f' :: 'a' :: 'l' :: 's' :: 'e' :: rest => some (.bool false, rest)
    | '"' :: rest =>
      match parseJsonStringChars (rest.length + 1) rest with
      | none => none
      | some (cs0, rem) => some (.str (String.mk cs0), rem)
    | '[' :: rest =>
      match skipJsonWs rest with
      | ']' :: rem => some (.arr [], rem)
      | rem1 =>
        match parseJsonElems fuel rem1 with
        | none => none
        | some (elems, rem) => some (.arr elems, rem)
    | '\x7b' :: rest =>
      match skipJsonWs rest with
      | '\x7d' :: rem => some (.obj [], rem)
      | rem1 =>
        match parseJsonMembers fuel rem1 with
        | none => none
        | some (ms, rem) => some (.obj ms, rem)
    | cs1 =>
      match parseJsonNumber cs1 with
      | none => none
      | some (n, rem) => some (.num n, rem)

def parseJsonElems : Nat → List Char → Option (List Json × List Char)
  | 0, _ => none
  | fuel+1, cs =>
    match parseJsonValue fuel cs with
    | none => none
    | some (j, rem) =>
      match skipJsonWs rem with
      | ',' :: rem2 =>
        match parseJsonElems fuel rem2 with
        | none => none
        | some (js, rem3) => some (j :: js, rem3)
      | ']' :: rem2 => some ([j], rem2)
      | _ => none

def parseJsonMembers : Nat → List Char → Option (List (String × Json) × List Char)
  | 0, _ => none
  | fuel+1, cs =>
    match skipJsonWs cs with
    | '"' :: rest =>
      match parseJsonStringChars (rest.length + 1) rest with
      | none => none
      | some (kcs, rem) =>
        match skipJsonWs rem with
        | ':' :: rem2 =>
          match parseJsonValue fuel rem2 with
          | none => none
          | some (v, rem3) =>
            match skipJsonWs rem3 with
            | ',' :: rem4 =>
              match parseJsonMembers fuel rem4 with
              | none => none
              | some (ms, rem5) => some ((String.mk kcs, v) :: ms, rem5)
            | '\x7d' :: rem4 => some ([(String.mk kcs, v)], rem4)
            | _ => none
        | _ => none
    | _ => none

end

/-- `JSON.parse`: parse one value and require only whitespace after it. -/
def jsonParse (s : String) : Option Json :=
  match parseJsonValue (2 * s.length + 2) s.data with
  | none => none
  | some (j, rem) => if (skipJsonWs rem).isEmpty then some j else none

/-- JavaScript property access on a parse result (`parsed.key`): objects
yield the LAST member with the key (duplicate keys: last one wins), every
other value yields `undefined` (`none`); `null` is handled by the caller
because accessing a property of `null` throws. -/
def jsonLookup : Json → String → Option Json
  | .obj members, k => (members.reverse.find? (fun m => m.fst == k)).map (·.snd)
  | _, _ => none

mutual

/-- JavaScript string coercion (template-literal interpolation) of a value. -/
def jsDisplayValue : Json → String
  | .null => "null"
  | .bool true => "true"
  | .bool false => "false"
  | .num n => toString n
  | .str s => s
  | .arr elems => jsDisplayElems elems
  | .obj _ => "[object Object]"

/-- `Array.prototype.toString`: elements joined with commas, `null` (and
`undefined`) rendering as the empty string. -/
def jsDisplayElems : List Json → String
  | [] => ""
  | [j] =>
    match j with
    | .null => ""
    | _ => jsDisplayValue j
  | j :: rest =>
    (match j with
     | Json.null => ""
     | _ => jsDisplayValue j) ++ "," ++ jsDisplayElems rest

end

/-- JavaScript string coercion of a possibly-`undefined` value. -/
def jsDisplay : Option Json → String
  | none => "undefined"
  | some j => jsDisplayValue j

def isUnreservedURIChar (c : Char) : Bool :=
  c.isAlphanum || c = '-' || c = '_' || c = '.' || c = '!' || c = '~' ||
    c = '*' || c = '\'' || c = '(' || c = ')'

def utf8Bytes (c : Char) : List Nat :=
  let n := c.toNat
  if n < 0x80 then [n]
  else if n < 0x800 then [0xc0 + n / 64, 0x80 + n % 64]
  else if n < 0x10000 then
    [0xe0 + n / 4096, 0x80 + (n / 64) % 64, 0x80 + n % 64]
  else
    [0xf0 + n / 262144, 0x80 + (n / 4096) % 64, 0x80 + (n / 64) % 64,
      0x80 + n % 64]

def percentByte (n : Nat) : String :=
  String.mk ['%', hexDigitUpper (n / 16), hexDigitUpper (n % 16)]

/-- `encodeURIComponent`: unreserved characters pass through, everything
else is percent-encoded byte-wise in UTF-8. -/
def encodeURIComponent (s : String) : String :=
  String.join (s.data.map (fun c =>
    if isUnreservedURIChar c then String.mk [c]
    else String.join ((utf8Bytes c).map percentByte)))

def isUtf8Cont (b : Nat) : Bool := 0x80 ≤ b && b ≤ 0xbf

/-- Decode a byte sequence produced by a run of percent escapes; `none`
where the bytes are not well-formed UTF-8 (JavaScript throws `URIError`). -/
def utf8Decode : Nat → List Nat → Option (List Char)
  | 0, _ => none
  | _, [] => some []
  | fuel+1, b :: rest =>
    if b < 0x80 then
      (utf8Decode fuel rest).map (Char.ofNat b :: ·)
    else if 0xc2 ≤ b && b ≤ 0xdf then
      match rest with
      | b2 :: rest2 =>
        if isUtf8Cont b2 then
          (utf8Decode fuel rest2).map
            (Char.ofNat ((b - 0xc0) * 64 + (b2 - 0x80)) :: ·)
        else none
      | _ => none
    else if 0xe0 ≤ b && b ≤ 0xef then
      match rest with
      | b2 :: b3 :: rest2 =>
        if isUtf8Cont b2 && isUtf8Cont b3 then
          let n := (b - 0xe0) * 4096 + (b2 - 0x80) * 64 + (b3 - 0x80)
          if 0x800 ≤ n && (n < 0xd800 || 0xe000 ≤ n) then
            (utf8Decode fuel rest2).map (Char.ofNat n :: ·)
          else none
        else none
      | _ => none
    else if 0xf0 ≤ b && b ≤ 0xf4 then
      match rest with
      | b2 :: b3 :: b4 :: rest2 =>
        if isUtf8Cont b2 && isUtf8Cont b3 && isUtf8Cont b4 then
          let n := (b - 0xf0) * 262144 + (b2 - 0x80) * 4096 +
            (b3 - 0x80) * 64 + (b4 - 0x80)
          if 0x10000 ≤ n && n < 0x110000 then
            (utf8Decode fuel rest2).map (Char.ofNat n :: ·)
          else none
        else none
      | _ => none
    else none

/-- A maximal run of `%XX` escapes at the head of the input: the decoded
bytes and the rest; `none` on a malformed escape. -/
def decodePercentRun : List Char → Option (List Nat × List Char)
  | '%' :: a :: b :: rest =>
    match hexVal a, hexVal b with
    | some x, some y =>
      match decodePercentRun rest with
      | none => none
      | some (bytes, rem) => some ((x * 16 + y) :: bytes, rem)
    | _, _ => none
  | '%' :: _ => none
  | cs => some ([], cs)

def decodeURIChars : Nat → List Char → Option (List Char)
  | 0, _ => none
  | _, [] => some []
  | fuel+1, cs =>
    match cs with
    | '%' :: _ =>
      match decodePercentRun cs with
      | none => none
      | some (bytes, rem) =>
        match utf8Decode (bytes.length + 1) bytes with
        | none => none
        | some dcs =>
          match decodeURIChars fuel rem with
          | none => none
          | some tailCs => some (dcs ++ tailCs)
    | c :: rest =>
      match decodeURIChars fuel rest with
      | none => none
      | some tailCs => some (c :: tailCs)
    | [] => some []

/-- `decodeURIComponent`, `none` standing for a thrown `URIError`. -/
def decodeURIComponentE (s : String) : Option String :=
  (decodeURIChars (s.length + 1) s.data).map String.mk

/-- The slice of `vscode.Uri` the codec reads and writes: `scheme`, the file
system path, and the (still percent-encoded) `query`. -/
structure Uri where
  scheme : String
  path : String
  query : String
deriving DecidableEq, Repr

/-- `ComparedElementUriQuery` as it flows through the codec: the eight
declared fields, each possibly absent (`undefined`) on a decoded value.
The field VALUES are opaque `Json` payloads — their internal shape never
influences the codec. -/
structure ComparedElementUriQuery where
  serviceName : Option Json
  searchLocationName : Option Json
  service : Option Json
  searchLocation : Option Json
  element : Option Json
  fingerprint : Option Json
  uploadChangeControlValue : Option Json
  remoteVersionTempFilePath : Option Json
deriving DecidableEq

def optMember (k : String) : Option Json → List (String × Json)
  | none => []
  | some v => [(k, v)]

/-- The `SerializedValue` object literal of `toComparedElementUri`, with the
source's member order (`JSON.stringify` keeps insertion order and drops
`undefined` members). -/
def serializedQueryJson (q : ComparedElementUriQuery) : Json :=
  Json.obj ([("type", Json.str "compared-element")]
    ++ optMember "service" q.service
    ++ optMember "serviceName" q.serviceName
    ++ optMember "element" q.element
    ++ optMember "fingerprint" q.fingerprint
    ++ optMember "searchLocation" q.searchLocation
    ++ optMember "searchLocationName" q.searchLocationName
    ++ optMember "remoteVersionTempFilePath" q.remoteVersionTempFilePath
    ++ optMember "uploadChangeControlValue" q.uploadChangeControlValue)

/-- `toComparedElementUri`: build a `file`-scheme URI at the given path
whose query is the percent-encoded JSON serialization of the query object
(the source's try/catch is dead in this model: nothing here throws). -/
def toComparedElementUri (elementFileSystemPath : String)
    (q : ComparedElementUriQuery) : Uri :=
  { scheme := "file", path := elementFileSystemPath
    query := encodeURIComponent ((serializedQueryJson q).render) }

def noValidQueryMsg (decodedQuery : String) : String :=
  "Uri has no valid query for compared elements to parse: " ++ decodedQuery

def wrongQueryTypeMsg (actualType : String) : String :=
  "Uri query type is incorrect for compared elements: " ++ actualType ++
    ", but should be: compared-element"

def wrongSchemeMsg (actualScheme : String) : String :=
  "Uri scheme is incorrect for compared elements: " ++ actualScheme ++
    ", but should be: file"

structure UriValidationResult where
  valid : Bool
  message : Option String
deriving DecidableEq, Repr

/-- The destructuring of the parsed query performed when the codec's result
is consumed (JavaScript property reads; absent fields are `undefined`). -/
def extractComparedQuery (j : Json) : ComparedElementUriQuery :=
  { serviceName := jsonLookup j "serviceName"
    searchLocationName := jsonLookup j "searchLocationName"
    service := jsonLookup j "service"
    searchLocation := jsonLookup j "searchLocation"
    element := jsonLookup j "element"
    fingerprint := jsonLookup j "fingerprint"
    uploadChangeControlValue := jsonLookup j "uploadChangeControlValue"
    remoteVersionTempFilePath := jsonLookup j "remoteVersionTempFilePath" }

/-- `isComparedElementUri`.  A `none` result is an UNCAUGHT EXCEPTION:
`decodeURIComponent(uri.query)` sits outside the try/catch and throws
`URIError` on a malformed percent sequence, and `parsedQuery.type` throws
`TypeError` when the query parses to `null`.  Only `JSON.parse` failures
are caught and turned into the no-valid-query message. -/
def isComparedElementUriE (uri : Uri) : Option UriValidationResult :=
  if uri.scheme = "file" then
    match decodeURIComponentE uri.query with
    | none => none
    | some decodedQuery =>
      match jsonParse decodedQuery with
      | none => some ⟨false, some (noValidQueryMsg decodedQuery)⟩
      | some Json.null => none
      | some j =>
        match jsonLookup j "type" with
        | some (Json.str t) =>
          if t = "compared-element" then some ⟨true, none⟩
          else some ⟨false, some (wrongQueryTypeMsg t)⟩
        | other => some ⟨false, some (wrongQueryTypeMsg (jsDisplay other))⟩
  else some ⟨false, some (wrongSchemeMsg uri.scheme)⟩

/-- `fromComparedElementUri`: validate, then re-parse the decoded query in
the valid branch (returning it through its eight declared fields), else wrap
the validation message in an `Error`.  `none` again stands for an uncaught
exception propagating out. -/
def fromComparedElementUriE (uri : Uri) :
    Option (Except String ComparedElementUriQuery) :=
  match isComparedElementUriE uri with
  | none => none
  | some v =>
    if v.valid then
      match decodeURIComponentE uri.query with
      | none => none
      | some s =>
        match jsonParse s with
        | none => none
        | some j => some (.ok (extractComparedQuery j))
    else some (.error (v.message.getD ""))

def isOkResult : Except String Unit → Bool
  | .ok _ => true
  | .error _ => false

def cexService : Service :=
  ⟨"http", 1234, "services.company.net", "/endevor", "user", "pass", false⟩

def cexSearchLocation : ElementSearchLocation :=
  ⟨"ANY-INSTANCE", some "TEST", some "1", some "ANY-SYS", some "SUBSYS2",
    none, none, none⟩

def cexElement : Element :=
  ⟨"ANY-INSTANCE", "TEST", "1", "ANY-SYS", "SUBSYS2", "TYP", "ELM", "cbl"⟩

def cexUploadLocation : ElementMapPath :=
  ⟨"ANY-INSTANCE", "TEST", "1", "ANY-SYS", "SUBSYS2", "TYP", "ELM"⟩

def cexNewUploadLocation : ElementMapPath :=
  ⟨"ANY-INSTANCE", "TEST", "1", "ANY-SYS", "SUBSYS2", "TYP", "NEW-ELM"⟩

def cexParams : EditSessionParams :=
  ⟨cexElement, cexSearchLocation, cexService, "some-fingerprint",
    "searchLocationName", "serviceName"⟩

def cexCcv : ChangeControlValue := ⟨"ccid", "comment"⟩

def fingerprintMismatchEnv : CommandEnv :=
  ⟨Except.ok cexParams, some cexUploadLocation, some cexCcv,
    Except.ok "edited content",
    [UpdateResult.fingerprintMismatchError "remote version changed"],
    ⟨[], [], [], [], [Except.ok "/some/temp/ELM-local-version.cbl"],
      [Except.ok ()]⟩⟩

def newNameUploadEnv : CommandEnv :=
  ⟨Except.ok cexParams, some cexNewUploadLocation, some cexCcv,
    Except.ok "edited content", [UpdateResult.ok], ⟨[], [], [], [], [], []⟩⟩

def signoutLoopEnv : CommandEnv :=
  ⟨Except.ok cexParams, some cexUploadLocation, some cexCcv,
    Except.ok "edited content",
    [UpdateResult.signoutError "signed out to somebody else",
      UpdateResult.signoutError "signed out to somebody else",
      UpdateResult.ok],
    ⟨[⟨true, false⟩, ⟨true, false⟩], [SignOutResult.ok, SignOutResult.ok],
      [], [], [], []⟩⟩

def witnessComparedQuery : ComparedElementUriQuery :=
  { serviceName := some (Json.str "serviceName")
    searchLocationName := some (Json.str "searchLocationName")
    service := some (Json.str "svc")
    searchLocation := none
    element := none
    fingerprint := some (Json.str "some-fingerprint")
    uploadChangeControlValue := none
    remoteVersionTempFilePath := some (Json.str "/tmp/remote-version") }

def witnessComparedJson : Json := serializedQueryJson witnessComparedQuery

def witnessComparedUri : Uri :=
  toComparedElementUri "/some/temp/element.cbl" witnessComparedQuery

def noncanonicalComparedUri : Uri :=
  ⟨"file", "/some/temp/element.cbl",
    "%7B%22type%22%3A%22compared-element%22%20%7D"⟩

def emptyComparedQuery : ComparedElementUriQuery :=
  ⟨none, none, none, none, none, none, none, none⟩

def malformedQueryUri : Uri := ⟨"file", "/some/temp/element.cbl", "%"⟩

def signoutOnceEnv : CommandEnv :=
  ⟨Except.ok cexParams, some cexUploadLocation, some cexCcv,
    Except.ok "edited content",
    [UpdateResult.signoutError "signed out to somebody else",
      UpdateResult.ok],
    ⟨[⟨true, false⟩], [SignOutResult.ok], [], [], [], []⟩⟩

def cancelledEnv : CommandEnv :=
  ⟨Except.ok cexParams, none, none, Except.ok "edited content", [],
    ⟨[], [], [], [], [], []⟩⟩

def cexUploadCtx : UploadCtx :=
  ⟨cexService, cexSearchLocation, "serviceName", "searchLocationName",
    cexElement, cexCcv, "/some/temp/element.cbl", "some-fingerprint",
    Except.ok "edited content"⟩

def overrideFailureEnv : RecoveryEnv :=
  ⟨[⟨true, false⟩], [SignOutResult.signoutError "held by USER1"], [true],
    [OverrideSignOutResult.genericError "override rejected"], [], []⟩

def witnessMultiItems : List MultiEditItem :=
  [⟨"ELM1", Except.ok ⟨"serviceName", "searchLocationName", cexService,
      cexElement, cexSearchLocation⟩,
    Except.ok ⟨"content one", "fp1"⟩, Except.ok "/ws/.e4e/ELM1.cbl",
    some "/ws/.e4e/ELM1.cbl", Except.ok ()⟩,
   ⟨"ELM2", Except.ok ⟨"serviceName", "searchLocationName", cexService,
      cexElement, cexSearchLocation⟩,
    Except.error "network failure", Except.ok "/ws/.e4e/ELM2.cbl",
    some "/ws/.e4e/ELM2.cbl", Except.ok ()⟩]

theorem save_no_delete (ctx : UploadCtx) (env : RecoveryEnv) :
    countDeleteAttempts (saveLocalElementVersion ctx env).2.2 = 0 := by
  unfold saveLocalElementVersion
  rcases htk : takeSaveResult env with ⟨sv, env2⟩
  by_cases hd : dirname ctx.elementFilePath = "" <;>
    cases sv <;>
      simp [htk, hd, countDeleteAttempts, isDeleteAttempt]

theorem complexSignout_no_delete (ctx : UploadCtx) (env : RecoveryEnv) :
    countDeleteAttempts (complexSignoutElement ctx env).2.2 = 0 := by
  unfold complexSignoutElement
  repeat' split
  all_goals
    simp [countDeleteAttempts, List.countP_append, List.countP_cons,
      List.countP_nil, isDeleteAttempt]

theorem upload_no_delete (ctx : UploadCtx) :
    ∀ (updates : List UpdateResult) (env : RecoveryEnv),
      countDeleteAttempts (uploadElement ctx updates env).2.2 = 0 := by
  intro updates
  induction updates with
  | nil =>
    intro env
    unfold uploadElement
    cases ctx.readContent <;>
      simp [countDeleteAttempts, isDeleteAttempt, List.countP_cons]
  | cons u rest ih =>
    intro env
    unfold uploadElement
    rcases hrc : ctx.readContent with m | content
    · simp [countDeleteAttempts, isDeleteAttempt, List.countP_cons]
    · cases u with
      | signoutError m =>
        have hs := complexSignout_no_delete ctx env
        rcases hcs : complexSignoutElement ctx env with ⟨r, env2, tr⟩
        simp only [hcs] at hs
        cases r with
        | error msg =>
          simp only [hcs, countDeleteAttempts, List.countP_append,
            List.countP_cons, List.countP_nil, isDeleteAttempt,
            Bool.false_eq_true, if_false] at hs ⊢
          omega
        | ok _ =>
          have hu := ih env2
          rcases hup : uploadElement ctx rest env2 with ⟨r2, env3, tr2⟩
          simp only [hup] at hu
          simp only [hcs, hup, countDeleteAttempts, List.countP_append,
            List.countP_cons, List.countP_nil, isDeleteAttempt,
            Bool.false_eq_true, if_false] at hs hu ⊢
          omega
      | fingerprintMismatchError m =>
        have hsv := save_no_delete ctx env
        rcases hsl : saveLocalElementVersion ctx env with ⟨sr, env2, tr⟩
        simp only [hsl] at hsv
        cases sr with
        | error m2 =>
          simp only [hsl, countDeleteAttempts, List.countP_append,
            List.countP_cons, List.countP_nil, isDeleteAttempt,
            Bool.false_eq_true, if_false] at hsv ⊢
          omega
        | ok savedPath =>
          rcases htc : takeCompareResult env2 with ⟨cres, env3⟩
          cases cres <;>
            · simp only [hsl, htc, countDeleteAttempts, List.countP_append,
                List.countP_cons, List.countP_nil, isDeleteAttempt,
                Bool.false_eq_true, if_false] at hsv ⊢
              omega
      | genericError m =>
        simp [countDeleteAttempts, isDeleteAttempt, List.countP_cons]
      | ok =>
        simp [countDeleteAttempts, isDeleteAttempt, List.countP_cons]

/-- C2, amended: the temp file is delete-attempted exactly once on every
run whose `uploadElement` call returns non-error — the committed-success
path AND the successful conflict-staging path — and left intact on every
other terminal path (URI parse failure, cancelled dialogs, upload
errors). -/
theorem tempFileDeletedIffCompleted (env : CommandEnv) (path : String) :
    countDeleteAttempts (uploadElementCommand env path).2 =
      if isCompleted (uploadElementCommand env path).1 then 1 else 0 := by
  unfold uploadElementCommand
  rcases hup : env.uriParse with m | p
  · simp [countDeleteAttempts, isCompleted]
  · rcases hask : askForUploadValues env p.element with m | ⟨loc, ccv⟩
    · simp [hask, countDeleteAttempts, isCompleted]
    · have hnd := upload_no_delete (commandUploadCtx env path p loc ccv)
        env.updates env.recovery
      rcases hupl : uploadElement (commandUploadCtx env path p loc ccv)
          env.updates env.recovery with ⟨r, env2, tr⟩
      simp only [hupl] at hnd
      cases r with
      | error m =>
        simp only [hask, hupl, countDeleteAttempts, isCompleted,
          List.countP_append, List.countP_cons, List.countP_nil,
          isDeleteAttempt, Bool.false_eq_true, if_false] at hnd ⊢
        omega
      | ok _ =>
        simp only [hask, hupl, countDeleteAttempts, isCompleted,
          List.countP_append, List.countP_cons, List.countP_nil,
          isDeleteAttempt, Bool.false_eq_true, if_false] at hnd ⊢
        simp [hnd]

theorem complexSignout_no_update (ctx : UploadCtx) (env : RecoveryEnv) :
    countUpdateCalls (complexSignoutElement ctx env).2.2 = 0 := by
  unfold complexSignoutElement
  repeat' split
  all_goals
    simp [countUpdateCalls, List.countP_append, List.countP_cons,
      List.countP_nil, isUpdateCall]

theorem complexSignout_signedOut_count (ctx : UploadCtx) (env : RecoveryEnv) :
    countSignedOutDispatches (complexSignoutElement ctx env).2.2 =
      (if isOkResult (complexSignoutElement ctx env).1 then 1 else 0) := by
  unfold complexSignoutElement
  repeat' split
  all_goals
    simp_all [countSignedOutDispatches, List.countP_append, List.countP_cons,
      List.countP_nil, signedOutAction, isOkResult]

theorem save_no_update (ctx : UploadCtx) (env : RecoveryEnv) :
    countUpdateCalls (saveLocalElementVersion ctx env).2.2 = 0 := by
  unfold saveLocalElementVersion
  rcases htk : takeSaveResult env with ⟨sv, env2⟩
  by_cases hd : dirname ctx.elementFilePath = "" <;>
    cases sv <;>
      simp [htk, hd, countUpdateCalls, isUpdateCall]

theorem save_no_signedOut (ctx : UploadCtx) (env : RecoveryEnv) :
    countSignedOutDispatches (saveLocalElementVersion ctx env).2.2 = 0 := by
  unfold saveLocalElementVersion
  rcases htk : takeSaveResult env with ⟨sv, env2⟩
  by_cases hd : dirname ctx.elementFilePath = "" <;>
    cases sv <;>
      simp [htk, hd, countSignedOutDispatches]

/-- C4, amended: every update attempt beyond the first is enabled by one
successful sign-out recovery (the attempt count never exceeds 1 + the
number of signed-out events dispatched): each recovery buys exactly one
retry, but the recovery path may recur when the retry again reports a
sign-out conflict and the user consents again. -/
theorem updateAttempts_bounded (ctx : UploadCtx) :
    ∀ (updates : List UpdateResult) (env : RecoveryEnv),
      countUpdateCalls (uploadElement ctx updates env).2.2 ≤
        1 + countSignedOutDispatches (uploadElement ctx updates env).2.2 := by
  intro updates
  induction updates with
  | nil =>
    intro env
    unfold uploadElement
    cases ctx.readContent <;>
      simp [countUpdateCalls, countSignedOutDispatches, isUpdateCall,
        List.countP_cons]
  | cons u rest ih =>
    intro env
    unfold uploadElement
    rcases hrc : ctx.readContent with m | content
    · simp [countUpdateCalls, countSignedOutDispatches, isUpdateCall,
        List.countP_cons]
    · cases u with
      | signoutError m =>
        have hsu := complexSignout_no_update ctx env
        have hss := complexSignout_signedOut_count ctx env
        rcases hcs : complexSignoutElement ctx env with ⟨r, env2, tr⟩
        simp only [hcs] at hsu hss
        cases r with
        | error msg =>
          simp only [isOkResult] at hss
          simp only [hcs, countUpdateCalls, countSignedOutDispatches,
            List.countP_append, List.countP_cons, List.countP_nil,
            isUpdateCall, eq_self_iff_true, if_true, Bool.false_eq_true,
            if_false] at hsu hss ⊢
          omega
        | ok _ =>
          simp only [isOkResult] at hss
          have hu := ih env2
          rcases hup : uploadElement ctx rest env2 with ⟨r2, env3, tr2⟩
          simp only [hup] at hu
          simp only [hcs, hup, countUpdateCalls, countSignedOutDispatches,
            List.countP_append, List.countP_cons, List.countP_nil,
            isUpdateCall, eq_self_iff_true, if_true, Bool.false_eq_true,
            if_false] at hsu hss hu ⊢
          omega
      | fingerprintMismatchError m =>
        have hsu := save_no_update ctx env
        have hss := save_no_signedOut ctx env
        rcases hsl : saveLocalElementVersion ctx env with ⟨sr, env2, tr⟩
        simp only [hsl] at hsu hss
        cases sr with
        | error m2 =>
          simp only [hsl, countUpdateCalls, countSignedOutDispatches,
            List.countP_append, List.countP_cons, List.countP_nil,
            isUpdateCall, eq_self_iff_true, if_true, Bool.false_eq_true,
            if_false] at hsu hss ⊢
          omega
        | ok savedPath =>
          rcases htc : takeCompareResult env2 with ⟨cres, env3⟩
          cases cres <;>
            · simp only [hsl, htc, countUpdateCalls, countSignedOutDispatches,
                List.countP_append, List.countP_cons, List.countP_nil,
                isUpdateCall, eq_self_iff_true, if_true, Bool.false_eq_true,
                if_false] at hsu hss ⊢
              omega
      | genericError m =>
        simp [countUpdateCalls, countSignedOutDispatches, isUpdateCall,
          List.countP_cons]
      | ok =>
        simp [countUpdateCalls, countSignedOutDispatches, isUpdateCall,
          List.countP_cons]

/-- C5: when the first update returns SignoutError, the user accepts the
sign-out, the sign-out succeeds and the second update succeeds, exactly
two update calls, one signOut call and no override call are made, and the
ElementSignedOut event is dispatched strictly before the element-updated
event of the same upload cycle. -/
theorem signout_retry_sequence
    (env : CommandEnv) (path : String) (p : EditSessionParams)
    (loc : ElementMapPath) (ccv : ChangeControlValue) (content : String)
    (m : String) (ans : SignOutAnswer)
    (h1 : env.uriParse = Except.ok p)
    (h2 : env.uploadLocationAnswer = some loc)
    (h3 : env.changeControlAnswer = some ccv)
    (h4 : env.readContent = Except.ok content)
    (h5 : env.updates = [UpdateResult.signoutError m, UpdateResult.ok])
    (h6 : env.recovery.signOutAnswers = [ans])
    (h7 : ans.signOutElements = true)
    (h8 : env.recovery.signOutResults = [SignOutResult.ok]) :
    countUpdateCalls (uploadElementCommand env path).2 = 2 ∧
    countSignOutCalls (uploadElementCommand env path).2 = 1 ∧
    countOverrideCalls (uploadElementCommand env path).2 = 0 ∧
    dispatchedActions (uploadElementCommand env path).2 =
      [Action.elementSignedOut p.serviceName p.service p.searchLocationName
          p.searchLocation [toElement loc p.element.extension],
        Action.elementUpdated p.serviceName p.service p.searchLocationName
          p.searchLocation [p.element]] := by
  rcases env with ⟨up, ula, cca, rc, updates, rec⟩
  rcases rec with ⟨sa, sr, oa, orr, sv, cr⟩
  simp only at h1 h2 h3 h4 h5 h6 h8
  subst h1 h2 h3 h4 h5 h6 h8
  rcases ans with ⟨soe, auto⟩
  simp only at h7
  subst h7
  cases auto <;>
    simp [uploadElementCommand, askForUploadValues, uploadElement,
      complexSignoutElement, commandUploadCtx, takeSignOutAnswer,
      takeSignOutResult, signedOutAction, countUpdateCalls, countSignOutCalls,
      countOverrideCalls, dispatchedActions, isUpdateCall, isSignOutCall,
      isOverrideSignOutCall, List.countP_append, List.countP_cons,
      List.countP_nil, List.filterMap_append, List.filterMap_cons]

/-- C8: cancelling the upload-location dialog or the change-control dialog
terminates the command with the corresponding explicit error message and
an empty effect trace — no update call, no signOut call, no dispatched
event. -/
theorem cancelled_dialogs_no_remote_calls
    (env : CommandEnv) (path : String) (p : EditSessionParams)
    (h1 : env.uriParse = Except.ok p)
    (hc : env.uploadLocationAnswer = none ∨ env.changeControlAnswer = none) :
    (env.uploadLocationAnswer = none →
      uploadElementCommand env path =
        (CommandOutcome.valuesNotProvided
          (uploadLocationMustBeSpecifiedMsg p.element.name), [])) ∧
    (∀ loc, env.uploadLocationAnswer = some loc →
      env.changeControlAnswer = none →
      uploadElementCommand env path =
        (CommandOutcome.valuesNotProvided
          (ccidCommentMustBeSpecifiedMsg loc.name), [])) ∧
    (uploadElementCommand env path).2.countP (isRemoteCall ·) = 0 ∧
    dispatchedActions (uploadElementCommand env path).2 = [] := by
  have hcases :
      uploadElementCommand env path =
        (CommandOutcome.valuesNotProvided
          (uploadLocationMustBeSpecifiedMsg p.element.name), []) ∨
      ∃ loc, env.uploadLocationAnswer = some loc ∧
        uploadElementCommand env path =
          (CommandOutcome.valuesNotProvided
            (ccidCommentMustBeSpecifiedMsg loc.name), []) := by
    rcases hul : env.uploadLocationAnswer with _ | loc
    · left
      simp [uploadElementCommand, askForUploadValues, h1, hul]
    · right
      rcases hcc : env.changeControlAnswer with _ | ccv
      · exact ⟨loc, rfl,
          by simp [uploadElementCommand, askForUploadValues, h1, hul, hcc]⟩
      · rcases hc with hc | hc
        · rw [hul] at hc; cases hc
        · rw [hcc] at hc; cases hc
  refine ⟨?_, ?_, ?_, ?_⟩
  · intro hul
    simp [uploadElementCommand, askForUploadValues, h1, hul]
  · intro loc hul hcc
    simp [uploadElementCommand, askForUploadValues, h1, hul, hcc]
  · rcases hcases with h | ⟨loc, _, h⟩ <;> simp [h]
  · rcases hcases with h | ⟨loc, _, h⟩ <;> simp [h, dispatchedActions]

/-- C10: when the override sign-out fails after a failed plain sign-out,
the error returned by `complexSignoutElement` embeds the message of the
initial signOut failure, not the message of the failed override attempt
(`const error = signOutResult;` on that branch). -/
theorem override_failure_wraps_original_message
    (ctx : UploadCtx) (env : RecoveryEnv) (ans : SignOutAnswer)
    (m1 m2 : String)
    (h1 : env.signOutAnswers = [ans])
    (h2 : ans.signOutElements = true ∨ ans.automaticSignOut = true)
    (h3 : env.signOutResults = [SignOutResult.signoutError m1])
    (h4 : env.overrideAnswers = [true])
    (h5 : env.overrideResults = [OverrideSignOutResult.genericError m2]) :
    (complexSignoutElement ctx env).1 =
      Except.error (overrideSignoutFailedMsg ctx.element.name m1) ∧
    (m1 ≠ m2 →
      (complexSignoutElement ctx env).1 ≠
        Except.error (overrideSignoutFailedMsg ctx.element.name m2)) := by
  have hmain : (complexSignoutElement ctx env).1 =
      Except.error (overrideSignoutFailedMsg ctx.element.name m1) := by
    rcases env with ⟨sa, sr, oa, orr, sv, cr⟩
    simp only at h1 h3 h4 h5
    subst h1 h3 h4 h5
    rcases ans with ⟨soe, auto⟩
    simp only at h2
    rcases h2 with h2 | h2
    · subst h2
      cases auto <;>
        simp [complexSignoutElement, takeSignOutAnswer, takeSignOutResult,
          takeOverrideAnswer, takeOverrideResult]
    · subst h2
      cases soe <;>
        simp [complexSignoutElement, takeSignOutAnswer, takeSignOutResult,
          takeOverrideAnswer, takeOverrideResult]
  refine ⟨hmain, fun hne hcontra => hne ?_⟩
  rw [hmain] at hcontra
  have hmsg : overrideSignoutFailedMsg ctx.element.name m1 =
      overrideSignoutFailedMsg ctx.element.name m2 := by
    injection hcontra
  have hdata := congrArg String.data hmsg
  simp only [overrideSignoutFailedMsg] at hdata
  have hdata2 :
      ("Unable to perform an override signout of the element ".data ++
          ctx.element.name.data ++ " because of error ".data) ++ m1.data =
        ("Unable to perform an override signout of the element ".data ++
          ctx.element.name.data ++ " because of error ".data) ++ m2.data := by
    simpa [List.append_assoc] using hdata
  have := List.append_cancel_left hdata2
  exact congrArg String.mk this

/-- C1, amended: on a first-update fingerprint mismatch the conflict copy
named `<element>-local-version` with the element's extension is created in
the session's temp folder with the in-editor content, the gateway is
invoked exactly once with exactly the upload's (service, searchLocation,
changeControl, target element, serviceName, searchLocationName,
local-version path) values, and no event is dispatched when the gateway
invocation fails — but when it resolves successfully the command treats
the upload as complete and dispatches its ELEMENT_UPDATED event. -/
theorem fingerprint_mismatch_conflict_staging
    (env : CommandEnv) (path : String) (p : EditSessionParams)
    (loc : ElementMapPath) (ccv : ChangeControlValue) (content : String)
    (m : String) (savedPath : String) (cres : Except String Unit)
    (h1 : env.uriParse = Except.ok p)
    (h2 : env.uploadLocationAnswer = some loc)
    (h3 : env.changeControlAnswer = some ccv)
    (h4 : env.readContent = Except.ok content)
    (h5 : env.updates = [UpdateResult.fingerprintMismatchError m])
    (h6 : env.recovery.saveResults = [Except.ok savedPath])
    (h7 : env.recovery.compareResults = [cres])
    (h8 : dirname path ≠ "") :
    Effect.savedLocalVersionFile (dirname path)
        ((toElement loc p.element.extension).name ++ "-local-version")
        (toElement loc p.element.extension).extension content ∈
      (uploadElementCommand env path).2 ∧
    (uploadElementCommand env path).2.filter (isCompareCall ·) =
      [Effect.compareCall p.service p.searchLocation ccv
        (toElement loc p.element.extension) p.serviceName
        p.searchLocationName savedPath] ∧
    dispatchedActions (uploadElementCommand env path).2 =
      (match cres with
        | Except.error _ => []
        | Except.ok _ => [Action.elementUpdated p.serviceName p.service
            p.searchLocationName p.searchLocation [p.element]]) := by
  rcases env with ⟨up, ula, cca, rc, updates, rec⟩
  rcases rec with ⟨sa, sr, oa, orr, sv, cr⟩
  simp only at h1 h2 h3 h4 h5 h6 h7
  subst h1 h2 h3 h4 h5 h6 h7
  cases cres <;>
    simp [uploadElementCommand, askForUploadValues, uploadElement,
      saveLocalElementVersion, commandUploadCtx, takeSaveResult,
      takeCompareResult, h8, dispatchedActions, isCompareCall,
      List.filter_append, List.filterMap_append]

/-- C1, counterexample: in a run whose only update result is a
fingerprint mismatch (conflict staging, successful gateway invocation),
the command DOES dispatch a domain event — the claim's "no domain event
is dispatched by that command invocation" is false on the code. -/
theorem fingerprintMismatchDispatchesEvent_cex :
    fingerprintMismatchEnv.updates =
      [UpdateResult.fingerprintMismatchError "remote version changed"] ∧
    dispatchedActions
        (uploadElementCommand fingerprintMismatchEnv
          "/some/temp/element.cbl").2 =
      [Action.elementUpdated "serviceName" cexService "searchLocationName"
        cexSearchLocation [cexElement]] := by
  constructor <;> rfl

/-- C2, counterexample: the fingerprint-mismatch conflict-staging run (no
successful update at all) still deletes the session temp file once,
refuting "only on the path where the upload committed successfully". -/
theorem tempFileDeletedOnConflictStaging_cex :
    UpdateResult.ok ∉ fingerprintMismatchEnv.updates ∧
    countDeleteAttempts
        (uploadElementCommand fingerprintMismatchEnv
          "/some/temp/element.cbl").2 = 1 := by
  refine ⟨by decide, rfl⟩

/-- C3, code bug: a successful upload to a NEW element name dispatches the
generic `ELEMENT_UPDATED` action carrying the ORIGINAL edit-session
element, not an added-at-new-location event carrying the new location; the
repository's own test for this scenario expects `Actions.ELEMENT_ADDED`
with the new element. The run below uploads to name NEW-ELM and the single
dispatched action is `elementUpdated … [cexElement]` (name ELM). -/
theorem newNameUploadDispatchesElementUpdated_bug :
    uploadElementCommand newNameUploadEnv "/some/temp/element.cbl" =
      (CommandOutcome.completed,
        [Effect.closedActiveEditor,
          Effect.readElementContent "/some/temp/element.cbl",
          Effect.updateCall cexService (toElement cexNewUploadLocation "cbl")
            cexCcv "some-fingerprint" "edited content",
          Effect.deleteAttempt "/some/temp/element.cbl",
          Effect.dispatched (Action.elementUpdated "serviceName" cexService
            "searchLocationName" cexSearchLocation [cexElement])]) := by
  rfl

/-- C4, counterexample: with update results [SignoutError, SignoutError,
ok] and a user who accepts sign-out twice, one orchestration makes THREE
update calls and TWO sign-out calls — the sign-out path is taken again
within the same invocation, refuting "the orchestrator never loops the
sign-out/override path again". -/
theorem signoutRecoveryLoops_cex :
    countUpdateCalls
        (uploadElementCommand signoutLoopEnv "/some/temp/element.cbl").2 = 3 ∧
    countSignOutCalls
        (uploadElementCommand signoutLoopEnv "/some/temp/element.cbl").2 = 2 := by
  constructor <;> rfl

theorem multiEditShowResults_eq :
    ∀ items : List MultiEditItem,
      multiEditShowResults items = items.map multiEditItemOutcome
  | [] => rfl
  | it :: rest => by
    have ih := multiEditShowResults_eq rest
    simp only [multiEditShowResults, multiEditSaveResults,
      multiEditRetrieveResults, multiEditRetrievedContents,
      multiEditElementUris, List.map_cons, List.zipWith_cons_cons] at ih ⊢
    rcases it with ⟨nm, up, rr, sv, uo, sh⟩
    cases up <;> cases rr <;> cases sv <;> cases uo <;> cases sh <;>
      simp [multiEditItemOutcome, ih]

/-- C6: the multi-element edit computes every element's outcome from that
element's own call results alone (the result list is the pointwise map of
`multiEditItemOutcome`, so one element's retrieval/save/reveal failure
cannot abort the others), each error stays at its own index, and the
single combined diagnostic lists every failed element's name (the source
interpolates ALL selected names) with all collected error messages. -/
theorem editMultipleElements_isolates (items : List MultiEditItem) :
    editMultipleElements true items =
      MultiEditOutcome.done (items.map multiEditItemOutcome)
        (if ((items.map multiEditItemOutcome).filterMap id).isEmpty then none
         else some (items.map (fun it => it.name),
           (items.map multiEditItemOutcome).filterMap id)) ∧
    (∀ it ∈ items, ∀ m, multiEditItemOutcome it = some m →
      m ∈ (items.map multiEditItemOutcome).filterMap id ∧
      it.name ∈ items.map (fun it => it.name)) := by
  constructor
  · simp [editMultipleElements, multiEditShowResults_eq]
  · intro it hmem m hm
    refine ⟨List.mem_filterMap.mpr ⟨some m, ?_, rfl⟩,
      List.mem_map_of_mem _ hmem⟩
    exact List.mem_map.mpr ⟨it, hmem, hm⟩

theorem stringDataAppend (a b : String) : (a ++ b).data = a.data ++ b.data :=
  rfl

theorem appendNeOfTakeNe (p1 p2 a b : String) (n : Nat)
    (h1 : n ≤ p1.length) (h2 : n ≤ p2.length)
    (hne : p1.data.take n ≠ p2.data.take n) : p1 ++ a ≠ p2 ++ b := by
  intro h
  apply hne
  have hd : p1.data ++ a.data = p2.data ++ b.data := congrArg String.data h
  calc p1.data.take n
      = (p1.data ++ a.data).take n :=
        (List.take_append_of_le_length h1).symm
    _ = (p2.data ++ b.data).take n := by rw [hd]
    _ = p2.data.take n := List.take_append_of_le_length h2

theorem noValidQueryMsg_ne_wrongQueryTypeMsg (a b : String) :
    noValidQueryMsg a ≠ wrongQueryTypeMsg b := by
  unfold noValidQueryMsg wrongQueryTypeMsg
  rw [String.append_assoc]
  exact appendNeOfTakeNe _ _ _ _ 7 (by decide) (by decide) (by decide)

theorem noValidQueryMsg_ne_wrongSchemeMsg (a b : String) :
    noValidQueryMsg a ≠ wrongSchemeMsg b := by
  unfold noValidQueryMsg wrongSchemeMsg
  rw [String.append_assoc]
  exact appendNeOfTakeNe _ _ _ _ 7 (by decide) (by decide) (by decide)

theorem wrongQueryTypeMsg_ne_wrongSchemeMsg (a b : String) :
    wrongQueryTypeMsg a ≠ wrongSchemeMsg b := by
  unfold wrongQueryTypeMsg wrongSchemeMsg
  rw [String.append_assoc, String.append_assoc]
  exact appendNeOfTakeNe _ _ _ _ 7 (by decide) (by decide) (by decide)

theorem appendLeftNeEmpty (p a : String) (hp : p.length ≠ 0) : p ++ a ≠ "" := by
  intro h
  have hl := congrArg String.length h
  rw [String.length_append] at hl
  simp at hl
  omega

theorem noValidQueryMsg_ne_empty (a : String) : noValidQueryMsg a ≠ "" := by
  unfold noValidQueryMsg
  exact appendLeftNeEmpty _ _ (by decide)

theorem wrongQueryTypeMsg_ne_empty (a : String) :
    wrongQueryTypeMsg a ≠ "" := by
  unfold wrongQueryTypeMsg
  rw [String.append_assoc]
  exact appendLeftNeEmpty _ _ (by decide)

theorem wrongSchemeMsg_ne_empty (a : String) : wrongSchemeMsg a ≠ "" := by
  unfold wrongSchemeMsg
  rw [String.append_assoc]
  exact appendLeftNeEmpty _ _ (by decide)

/-- C7, amended: encode(decode(x)) = x for every valid compared-element
locator whose query is the CANONICAL percent-encoded serialization of its
parsed value (equivalently, every locator produced by
`toComparedElementUri`); and the three decode-failure causes (unparsable
payload, wrong query type, wrong scheme) produce three pairwise-distinct
error messages, whatever data is interpolated into them. -/
theorem comparedUri_canonical_roundTrip (u : Uri) (s : String) (j : Json)
    (hscheme : u.scheme = "file")
    (hdec : decodeURIComponentE u.query = some s)
    (hparse : jsonParse s = some j)
    (htype : jsonLookup j "type" = some (Json.str "compared-element"))
    (hcanon : encodeURIComponent
        ((serializedQueryJson (extractComparedQuery j)).render) = u.query) :
    (fromComparedElementUriE u = some (Except.ok (extractComparedQuery j)) ∧
      toComparedElementUri u.path (extractComparedQuery j) = u) ∧
    (∀ a b, noValidQueryMsg a ≠ wrongQueryTypeMsg b) ∧
    (∀ a b, noValidQueryMsg a ≠ wrongSchemeMsg b) ∧
    (∀ a b, wrongQueryTypeMsg a ≠ wrongSchemeMsg b) := by
  refine ⟨⟨?_, ?_⟩, noValidQueryMsg_ne_wrongQueryTypeMsg,
    noValidQueryMsg_ne_wrongSchemeMsg, wrongQueryTypeMsg_ne_wrongSchemeMsg⟩
  · cases j with
    | null => simp [jsonLookup] at htype
    | bool b => simp [jsonLookup] at htype
    | num n => simp [jsonLookup] at htype
    | str t => simp [jsonLookup] at htype
    | arr elems => simp [jsonLookup] at htype
    | obj members =>
      simp [fromComparedElementUriE, isComparedElementUriE, hscheme, hdec,
        hparse, htype]
  · unfold toComparedElementUri
    rw [hcanon]
    rcases u with ⟨sch, pth, qry⟩
    simp only at hscheme
    rw [hscheme]

/-- C9, amended: for every URI whose query percent-decodes (and does not
parse to JSON `null`, whose property read would raise a `TypeError`),
`fromComparedElementUri` never throws: if validation succeeds it returns
the parsed query through its declared fields (the parse in the valid
branch cannot fail), otherwise it returns an Error carrying the non-empty
validation message. -/
theorem fromComparedElementUri_noThrow (u : Uri) (s : String)
    (hdec : decodeURIComponentE u.query = some s)
    (hnn : jsonParse s ≠ some Json.null) :
    (∃ r, fromComparedElementUriE u = some r) ∧
    (isComparedElementUriE u = some ⟨true, none⟩ →
      ∃ j, jsonParse s = some j ∧
        fromComparedElementUriE u = some (Except.ok (extractComparedQuery j))) ∧
    (∀ v, isComparedElementUriE u = some v → v.valid = false →
      ∃ m, v.message = some m ∧ m ≠ "" ∧
        fromComparedElementUriE u = some (Except.error m)) := by
  by_cases hscheme : u.scheme = "file"
  · rcases hp : jsonParse s with _ | j
    · refine ⟨⟨Except.error (noValidQueryMsg s), ?_⟩, ?_, ?_⟩
      · simp [fromComparedElementUriE, isComparedElementUriE, hscheme, hdec,
          hp]
      · intro hv
        simp [isComparedElementUriE, hscheme, hdec, hp] at hv
      · intro v hv _
        simp [isComparedElementUriE, hscheme, hdec, hp] at hv
        refine ⟨noValidQueryMsg s, ?_, noValidQueryMsg_ne_empty s, ?_⟩
        · rw [← hv]
        · simp [fromComparedElementUriE, isComparedElementUriE, hscheme,
            hdec, hp]
    · cases j with
      | null => exact absurd hp hnn
      | obj members =>
        rcases hl : jsonLookup (Json.obj members) "type" with _ | jt
        · refine ⟨⟨Except.error (wrongQueryTypeMsg (jsDisplay none)), ?_⟩,
            ?_, ?_⟩
          · simp [fromComparedElementUriE, isComparedElementUriE, hscheme,
              hdec, hp, hl]
          · intro hv
            simp [isComparedElementUriE, hscheme, hdec, hp, hl] at hv
          · intro v hv _
            simp [isComparedElementUriE, hscheme, hdec, hp, hl] at hv
            refine ⟨wrongQueryTypeMsg (jsDisplay none), ?_,
              wrongQueryTypeMsg_ne_empty _, ?_⟩
            · rw [← hv]
            · simp [fromComparedElementUriE, isComparedElementUriE, hscheme,
                hdec, hp, hl]
        · cases jt with
          | str t =>
            by_cases ht : t = "compared-element"
            · subst ht
              refine ⟨⟨Except.ok (extractComparedQuery (Json.obj members)),
                ?_⟩, ?_, ?_⟩
              · simp [fromComparedElementUriE, isComparedElementUriE,
                  hscheme, hdec, hp, hl]
              · intro _
                refine ⟨Json.obj members, rfl, ?_⟩
                simp [fromComparedElementUriE, isComparedElementUriE,
                  hscheme, hdec, hp, hl]
              · intro v hv hfalse
                simp [isComparedElementUriE, hscheme, hdec, hp, hl] at hv
                rw [← hv] at hfalse
                simp at hfalse
            · refine ⟨⟨Except.error (wrongQueryTypeMsg t), ?_⟩, ?_, ?_⟩
              · simp [fromComparedElementUriE, isComparedElementUriE,
                  hscheme, hdec, hp, hl, ht]
              · intro hv
                simp [isComparedElementUriE, hscheme, hdec, hp, hl, ht] at hv
              · intro v hv _
                simp [isComparedElementUriE, hscheme, hdec, hp, hl, ht] at hv
                refine ⟨wrongQueryTypeMsg t, ?_, wrongQueryTypeMsg_ne_empty _,
                  ?_⟩
                · rw [← hv]
                · simp [fromComparedElementUriE, isComparedElementUriE,
                    hscheme, hdec, hp, hl, ht]
          | null =>
            refine ⟨⟨Except.error (wrongQueryTypeMsg (jsDisplay (some Json.null))), ?_⟩, ?_, ?_⟩
            · simp [fromComparedElementUriE, isComparedElementUriE, hscheme,
                hdec, hp, hl]
            · intro hv
              simp [isComparedElementUriE, hscheme, hdec, hp, hl] at hv
            · intro v hv _
              simp [isComparedElementUriE, hscheme, hdec, hp, hl] at hv
              subst hv
              refine ⟨_, rfl, wrongQueryTypeMsg_ne_empty _, ?_⟩
              simp [fromComparedElementUriE, isComparedElementUriE,
                  hscheme, hdec, hp, hl]
          | bool b =>
            refine ⟨⟨Except.error (wrongQueryTypeMsg (jsDisplay (some (Json.bool b)))), ?_⟩, ?_, ?_⟩
            · simp [fromComparedElementUriE, isComparedElementUriE, hscheme,
                hdec, hp, hl]
            · intro hv
              simp [isComparedElementUriE, hscheme, hdec, hp, hl] at hv
            · intro v hv _
              simp [isComparedElementUriE, hscheme, hdec, hp, hl] at hv
              subst hv
              refine ⟨_, rfl, wrongQueryTypeMsg_ne_empty _, ?_⟩
              simp [fromComparedElementUriE, isComparedElementUriE,
                  hscheme, hdec, hp, hl]
          | num n =>
            refine ⟨⟨Except.error (wrongQueryTypeMsg (jsDisplay (some (Json.num n)))), ?_⟩, ?_, ?_⟩
            · simp [fromComparedElementUriE, isComparedElementUriE, hscheme,
                hdec, hp, hl]
            · intro hv
              simp [isComparedElementUriE, hscheme, hdec, hp, hl] at hv
            · intro v hv _
              simp [isComparedElementUriE, hscheme, hdec, hp, hl] at hv
              subst hv
              refine ⟨_, rfl, wrongQueryTypeMsg_ne_empty _, ?_⟩
              simp [fromComparedElementUriE, isComparedElementUriE,
                  hscheme, hdec, hp, hl]
          | arr elems =>
            refine ⟨⟨Except.error (wrongQueryTypeMsg (jsDisplay (some (Json.arr elems)))), ?_⟩, ?_, ?_⟩
            · simp [fromComparedElementUriE, isComparedElementUriE, hscheme,
                hdec, hp, hl]
            · intro hv
              simp [isComparedElementUriE, hscheme, hdec, hp, hl] at hv
            · intro v hv _
              simp [isComparedElementUriE, hscheme, hdec, hp, hl] at hv
              subst hv
              refine ⟨_, rfl, wrongQueryTypeMsg_ne_empty _, ?_⟩
              simp [fromComparedElementUriE, isComparedElementUriE,
                  hscheme, hdec, hp, hl]
          | obj ms2 =>
            refine ⟨⟨Except.error (wrongQueryTypeMsg (jsDisplay (some (Json.obj ms2)))), ?_⟩, ?_, ?_⟩
            · simp [fromComparedElementUriE, isComparedElementUriE, hscheme,
                hdec, hp, hl]
            · intro hv
              simp [isComparedElementUriE, hscheme, hdec, hp, hl] at hv
            · intro v hv _
              simp [isComparedElementUriE, hscheme, hdec, hp, hl] at hv
              subst hv
              refine ⟨_, rfl, wrongQueryTypeMsg_ne_empty _, ?_⟩
              simp [fromComparedElementUriE, isComparedElementUriE,
                  hscheme, hdec, hp, hl]
      | bool b =>
        refine ⟨⟨Except.error (wrongQueryTypeMsg (jsDisplay none)), ?_⟩, ?_, ?_⟩
        · simp [fromComparedElementUriE, isComparedElementUriE, hscheme,
            hdec, hp, jsonLookup]
        · intro hv
          simp [isComparedElementUriE, hscheme, hdec, hp, jsonLookup] at hv
        · intro v hv _
          simp [isComparedElementUriE, hscheme, hdec, hp, jsonLookup] at hv
          subst hv
          refine ⟨_, rfl, wrongQueryTypeMsg_ne_empty _, ?_⟩
          simp [fromComparedElementUriE, isComparedElementUriE, hscheme,
              hdec, hp, jsonLookup]
      | num n =>
        refine ⟨⟨Except.error (wrongQueryTypeMsg (jsDisplay none)), ?_⟩, ?_, ?_⟩
        · simp [fromComparedElementUriE, isComparedElementUriE, hscheme,
            hdec, hp, jsonLookup]
        · intro hv
          simp [isComparedElementUriE, hscheme, hdec, hp, jsonLookup] at hv
        · intro v hv _
          simp [isComparedElementUriE, hscheme, hdec, hp, jsonLookup] at hv
          subst hv
          refine ⟨_, rfl, wrongQueryTypeMsg_ne_empty _, ?_⟩
          simp [fromComparedElementUriE, isComparedElementUriE, hscheme,
              hdec, hp, jsonLookup]
      | str t =>
        refine ⟨⟨Except.error (wrongQueryTypeMsg (jsDisplay none)), ?_⟩, ?_, ?_⟩
        · simp [fromComparedElementUriE, isComparedElementUriE, hscheme,
            hdec, hp, jsonLookup]
        · intro hv
          simp [isComparedElementUriE, hscheme, hdec, hp, jsonLookup] at hv
        · intro v hv _
          simp [isComparedElementUriE, hscheme, hdec, hp, jsonLookup] at hv
          subst hv
          refine ⟨_, rfl, wrongQueryTypeMsg_ne_empty _, ?_⟩
          simp [fromComparedElementUriE, isComparedElementUriE, hscheme,
              hdec, hp, jsonLookup]
      | arr elems =>
        refine ⟨⟨Except.error (wrongQueryTypeMsg (jsDisplay none)), ?_⟩, ?_, ?_⟩
        · simp [fromComparedElementUriE, isComparedElementUriE, hscheme,
            hdec, hp, jsonLookup]
        · intro hv
          simp [isComparedElementUriE, hscheme, hdec, hp, jsonLookup] at hv
        · intro v hv _
          simp [isComparedElementUriE, hscheme, hdec, hp, jsonLookup] at hv
          subst hv
          refine ⟨_, rfl, wrongQueryTypeMsg_ne_empty _, ?_⟩
          simp [fromComparedElementUriE, isComparedElementUriE, hscheme,
              hdec, hp, jsonLookup]
  · refine ⟨⟨Except.error (wrongSchemeMsg u.scheme), ?_⟩, ?_, ?_⟩
    · simp [fromComparedElementUriE, isComparedElementUriE, hscheme]
    · intro hv
      simp [isComparedElementUriE, hscheme] at hv
    · intro v hv _
      simp [isComparedElementUriE, hscheme] at hv
      refine ⟨wrongSchemeMsg u.scheme, ?_, wrongSchemeMsg_ne_empty _, ?_⟩
      · rw [← hv]
      · simp [fromComparedElementUriE, isComparedElementUriE, hscheme]

/-- C7, counterexample: a locator whose decoded query is
`\x7b"type":"compared-element" \x7d` (note the extra space) is VALID for
`isComparedElementUri`, yet re-encoding its decoded query yields a
different URI — encode(decode(x)) ≠ x for this valid x. -/
theorem comparedUri_roundTrip_cex :
    fromComparedElementUriE noncanonicalComparedUri =
      some (Except.ok emptyComparedQuery) ∧
    toComparedElementUri noncanonicalComparedUri.path emptyComparedQuery ≠
      noncanonicalComparedUri := by
  refine ⟨rfl, by decide⟩

/-- C9, counterexample: `fromComparedElementUri` DOES throw for a
file-scheme URI whose query is a malformed percent sequence (`"%"`):
`decodeURIComponent` sits outside the try/catch in `isComparedElementUri`
and raises `URIError` (modelled as `none`). -/
theorem fromComparedElementUri_throws_cex : fromComparedElementUriE malformedQueryUri = none := rfl

set_option maxRecDepth 100000 in
theorem comparedUri_canonical_roundTrip_witness :
    (fromComparedElementUriE witnessComparedUri =
        some (Except.ok (extractComparedQuery witnessComparedJson)) ∧
      toComparedElementUri witnessComparedUri.path
        (extractComparedQuery witnessComparedJson) = witnessComparedUri) ∧
    (∀ a b, noValidQueryMsg a ≠ wrongQueryTypeMsg b) ∧
    (∀ a b, noValidQueryMsg a ≠ wrongSchemeMsg b) ∧
    (∀ a b, wrongQueryTypeMsg a ≠ wrongSchemeMsg b) :=
  comparedUri_canonical_roundTrip witnessComparedUri
    witnessComparedJson.render witnessComparedJson rfl (by decide) (by decide)
    (by decide) (by decide)

theorem fromComparedElementUri_noThrow_witness :
    (∃ r, fromComparedElementUriE ⟨"e4eListing", "/p", "x"⟩ = some r) ∧
    (isComparedElementUriE ⟨"e4eListing", "/p", "x"⟩ = some ⟨true, none⟩ →
      ∃ j, jsonParse "x" = some j ∧
        fromComparedElementUriE ⟨"e4eListing", "/p", "x"⟩ =
          some (Except.ok (extractComparedQuery j))) ∧
    (∀ v, isComparedElementUriE ⟨"e4eListing", "/p", "x"⟩ = some v →
      v.valid = false →
      ∃ m, v.message = some m ∧ m ≠ "" ∧
        fromComparedElementUriE ⟨"e4eListing", "/p", "x"⟩ =
          some (Except.error m)) :=
  fromComparedElementUri_noThrow ⟨"e4eListing", "/p", "x"⟩ "x" (by decide)
    (by decide)

theorem fingerprint_mismatch_conflict_staging_witness :
    Effect.savedLocalVersionFile (dirname "/some/temp/element.cbl")
        ((toElement cexUploadLocation cexParams.element.extension).name ++
          "-local-version")
        (toElement cexUploadLocation cexParams.element.extension).extension
        "edited content" ∈
      (uploadElementCommand fingerprintMismatchEnv
        "/some/temp/element.cbl").2 ∧
    (uploadElementCommand fingerprintMismatchEnv
        "/some/temp/element.cbl").2.filter (isCompareCall ·) =
      [Effect.compareCall cexParams.service cexParams.searchLocation cexCcv
        (toElement cexUploadLocation cexParams.element.extension)
        cexParams.serviceName cexParams.searchLocationName
        "/some/temp/ELM-local-version.cbl"] ∧
    dispatchedActions
        (uploadElementCommand fingerprintMismatchEnv
          "/some/temp/element.cbl").2 =
      [Action.elementUpdated cexParams.serviceName cexParams.service
        cexParams.searchLocationName cexParams.searchLocation
        [cexParams.element]] :=
  fingerprint_mismatch_conflict_staging fingerprintMismatchEnv
    "/some/temp/element.cbl" cexParams cexUploadLocation cexCcv
    "edited content" "remote version changed"
    "/some/temp/ELM-local-version.cbl" (Except.ok ()) rfl rfl rfl rfl rfl rfl
    rfl (by decide)

theorem signout_retry_sequence_witness :
    countUpdateCalls
        (uploadElementCommand signoutOnceEnv "/some/temp/element.cbl").2 = 2 ∧
    countSignOutCalls
        (uploadElementCommand signoutOnceEnv "/some/temp/element.cbl").2 = 1 ∧
    countOverrideCalls
        (uploadElementCommand signoutOnceEnv "/some/temp/element.cbl").2 = 0 ∧
    dispatchedActions
        (uploadElementCommand signoutOnceEnv "/some/temp/element.cbl").2 =
      [Action.elementSignedOut cexParams.serviceName cexParams.service
          cexParams.searchLocationName cexParams.searchLocation
          [toElement cexUploadLocation cexParams.element.extension],
        Action.elementUpdated cexParams.serviceName cexParams.service
          cexParams.searchLocationName cexParams.searchLocation
          [cexParams.element]] :=
  signout_retry_sequence signoutOnceEnv "/some/temp/element.cbl" cexParams
    cexUploadLocation cexCcv "edited content" "signed out to somebody else"
    ⟨true, false⟩ rfl rfl rfl rfl rfl rfl rfl rfl

theorem cancelled_dialogs_no_remote_calls_witness :
    (cancelledEnv.uploadLocationAnswer = none →
      uploadElementCommand cancelledEnv "/some/temp/element.cbl" =
        (CommandOutcome.valuesNotProvided
          (uploadLocationMustBeSpecifiedMsg cexParams.element.name), [])) ∧
    (∀ loc, cancelledEnv.uploadLocationAnswer = some loc →
      cancelledEnv.changeControlAnswer = none →
      uploadElementCommand cancelledEnv "/some/temp/element.cbl" =
        (CommandOutcome.valuesNotProvided
          (ccidCommentMustBeSpecifiedMsg loc.name), [])) ∧
    (uploadElementCommand cancelledEnv
        "/some/temp/element.cbl").2.countP (isRemoteCall ·) = 0 ∧
    dispatchedActions
        (uploadElementCommand cancelledEnv "/some/temp/element.cbl").2 = [] :=
  cancelled_dialogs_no_remote_calls cancelledEnv "/some/temp/element.cbl"
    cexParams rfl (Or.inl rfl)

theorem override_failure_wraps_original_message_witness :
    (complexSignoutElement cexUploadCtx overrideFailureEnv).1 =
      Except.error
        (overrideSignoutFailedMsg cexUploadCtx.element.name "held by USER1") ∧
    ("held by USER1" ≠ "override rejected" →
      (complexSignoutElement cexUploadCtx overrideFailureEnv).1 ≠
        Except.error
          (overrideSignoutFailedMsg cexUploadCtx.element.name
            "override rejected")) :=
  override_failure_wraps_original_message cexUploadCtx overrideFailureEnv
    ⟨true, false⟩ "held by USER1" "override rejected" rfl (Or.inl rfl) rfl
    rfl rfl

theorem editMultipleElements_isolates_witness :
    editMultipleElements true witnessMultiItems =
      MultiEditOutcome.done
        (witnessMultiItems.map multiEditItemOutcome)
        (if ((witnessMultiItems.map multiEditItemOutcome).filterMap
              id).isEmpty then none
         else some (witnessMultiItems.map (fun it => it.name),
           (witnessMultiItems.map multiEditItemOutcome).filterMap id)) ∧
    (∀ it ∈ witnessMultiItems, ∀ m, multiEditItemOutcome it = some m →
      m ∈ (witnessMultiItems.map multiEditItemOutcome).filterMap id ∧
      it.name ∈ witnessMultiItems.map (fun it => it.name)) :=
  editMultipleElements_isolates witnessMultiItems

end E4E
